import Mathlib

/-!
Verification development for the PPE detection backend
(`backend/utils.py`, `backend/app_enhanced.py`).

The core functions are shallowly embedded: pixel coordinates and the
float quantities derived from them (centers, averages, rates) are
modelled as exact rationals, Python dicts whose key set matters are
modelled as association lists in insertion order, and nullable columns
are modelled with `Option`.  Each embedded definition keeps the name of
the source function it translates.
-/

namespace PPE

/-- Bounding box of a detection: the four pixel coordinates stored under
the detection dict's key x1, y1, x2, y2 (floats in the source, modelled
as exact rationals). -/
structure BoundingBox where
  x1 : ℚ
  y1 : ℚ
  x2 : ℚ
  y2 : ℚ
deriving DecidableEq

/-- One detection record.  The source dicts also carry class_id,
confidence and area, but `check_compliance` reads only the class name
and the bounding box, so only those fields are modelled. -/
structure Detection where
  class_name : String
  bounding_box : BoundingBox
deriving DecidableEq

/-- The three comprehensions at the top of `check_compliance`:
persons = [d for d in detections if d class_name == "person"]. -/
def personsOf (detections : List Detection) : List Detection :=
  detections.filter (fun d => d.class_name == "person")

/-- helmets = [d for d in detections if d class_name == "helmet"]. -/
def helmetsOf (detections : List Detection) : List Detection :=
  detections.filter (fun d => d.class_name == "helmet")

/-- vests = [d for d in detections if d class_name == "safety-vest"]. -/
def vestsOf (detections : List Detection) : List Detection :=
  detections.filter (fun d => d.class_name == "safety-vest")

/-- `boxes_overlap_or_close(box1, box2, threshold=50)` from
`backend/utils.py`.  The source compares the Euclidean center distance
(`(dx**2 + dy**2) ** 0.5`) against the threshold 50; since both sides
are nonnegative this is equivalent to comparing the squared distance
against `50 ^ 2`, which is how the exact-rational model states it. -/
def boxes_overlap_or_close (box1 box2 : Detection) : Bool :=
  let b1 := box1.bounding_box
  let b2 := box2.bounding_box
  if ¬ (b1.x2 < b2.x1 ∨ b1.x1 > b2.x2 ∨ b1.y2 < b2.y1 ∨ b1.y1 > b2.y2) then
    true
  else
    let center1_x := (b1.x1 + b1.x2) / 2
    let center1_y := (b1.y1 + b1.y2) / 2
    let center2_x := (b2.x1 + b2.x2) / 2
    let center2_y := (b2.y1 + b2.y2) / 2
    decide ((center1_x - center2_x) ^ 2 + (center1_y - center2_y) ^ 2 < 50 ^ 2)

/-- Spec-side notion for C1: the two rectangles intersect, with an
inclusive boundary (touching edges count as overlap). -/
def rectsIntersect (b1 b2 : BoundingBox) : Prop :=
  b2.x1 ≤ b1.x2 ∧ b1.x1 ≤ b2.x2 ∧ b2.y1 ≤ b1.y2 ∧ b1.y1 ≤ b2.y2

/-- Spec-side notion for C1: squared Euclidean distance between the two
box centers. -/
def centerDistSq (b1 b2 : BoundingBox) : ℚ :=
  ((b1.x1 + b1.x2) / 2 - (b2.x1 + b2.x2) / 2) ^ 2 +
    ((b1.y1 + b1.y2) / 2 - (b2.y1 + b2.y2) / 2) ^ 2

/-- `any(boxes_overlap_or_close(person, e) for e in equipment)`: the
association test a person's box runs against every helmet (resp. every
vest). -/
def has_ppe (person : Detection) (equipment : List Detection) : Bool :=
  equipment.any (fun e => boxes_overlap_or_close person e)

/-- A concrete person box, center (5, 5). -/
def personBox : Detection := ⟨"person", ⟨0, 0, 10, 10⟩⟩

/-- A concrete helmet box, disjoint from `personBox`, center (55, 5):
exactly 50 pixels from the person's center. -/
def helmetAt50 : Detection := ⟨"helmet", ⟨45, 0, 65, 10⟩⟩

/-- The verdict dict built by `check_compliance`.  `details` is a Python
dict whose key set differs between the two return branches, so it is
modelled as an association list in insertion order. -/
structure ComplianceResult where
  is_compliant : Bool
  message : String
  details : List (String × Nat)
  violations : List String
  warnings : List String
deriving DecidableEq

/-- The mutable accumulators of the per-person loop in
`check_compliance`: violations, persons_with_helmet, persons_with_vest,
fully_compliant. -/
structure LoopState where
  violations : List String
  persons_with_helmet : Nat
  persons_with_vest : Nat
  fully_compliant : Nat
deriving DecidableEq

/-- One iteration of the `for i, person in enumerate(persons, 1)` loop
body of `check_compliance`. -/
def complianceStep (helmets vests : List Detection) (i : Nat)
    (person : Detection) (s : LoopState) : LoopState :=
  let has_helmet := has_ppe person helmets
  let has_vest := has_ppe person vests
  { violations := s.violations
      ++ (if has_helmet then []
          else ["Person #" ++ toString i ++ " is not wearing a helmet"])
      ++ (if has_vest then []
          else ["Person #" ++ toString i ++ " is not wearing a safety vest"])
    persons_with_helmet := s.persons_with_helmet + (if has_helmet then 1 else 0)
    persons_with_vest := s.persons_with_vest + (if has_vest then 1 else 0)
    fully_compliant := s.fully_compliant + (if has_helmet && has_vest then 1 else 0) }

/-- The whole per-person loop, run over the persons list with the
1-based index threaded through. -/
def complianceLoop (helmets vests : List Detection) :
    Nat → List Detection → LoopState → LoopState
  | _, [], s => s
  | i, p :: ps, s =>
    complianceLoop helmets vests (i + 1) ps (complianceStep helmets vests i p s)

/-- Spec-side for C2: the violation strings one person contributes,
helmet check first, then vest check. -/
def personViolations (helmets vests : List Detection) (i : Nat)
    (person : Detection) : List String :=
  (if has_ppe person helmets then []
   else ["Person #" ++ toString i ++ " is not wearing a helmet"])
    ++ (if has_ppe person vests then []
        else ["Person #" ++ toString i ++ " is not wearing a safety vest"])

/-- `check_compliance(detections)` from `backend/utils.py`. -/
def check_compliance (detections : List Detection) : ComplianceResult :=
  let persons := personsOf detections
  let helmets := helmetsOf detections
  let vests := vestsOf detections
  if persons.isEmpty then
    { is_compliant := true
      message := "No persons detected"
      details := [("total_persons", 0), ("persons_with_helmet", 0),
        ("persons_with_vest", 0), ("fully_compliant", 0)]
      violations := []
      warnings := [] }
  else
    let s := complianceLoop helmets vests 1 persons ⟨[], 0, 0, 0⟩
    let is_compliant := s.violations.length == 0
    let message :=
      if is_compliant then
        "All " ++ toString persons.length ++ " person(s) are wearing required PPE"
      else
        toString s.violations.length ++ " PPE violation(s) detected"
    let warnings :=
      (if helmets.length > persons.length then
        ["Extra helmets detected (" ++ toString helmets.length ++ " helmets for "
          ++ toString persons.length ++ " persons)"]
      else [])
        ++ (if vests.length > persons.length then
          ["Extra vests detected (" ++ toString vests.length ++ " vests for "
            ++ toString persons.length ++ " persons)"]
        else [])
    { is_compliant := is_compliant
      message := message
      details := [("total_persons", persons.length),
        ("persons_with_helmet", s.persons_with_helmet),
        ("persons_with_vest", s.persons_with_vest),
        ("fully_compliant", s.fully_compliant),
        ("total_helmets", helmets.length),
        ("total_vests", vests.length)]
      violations := s.violations
      warnings := warnings }

/-- Reading a counter out of the verdict's details dict (0 if the key
is absent). -/
def detailNat (r : ComplianceResult) (key : String) : Nat :=
  (r.details.lookup key).getD 0

/-- A concrete bare person detection (no helmet and no vest nearby). -/
def barePerson : Detection := ⟨"person", ⟨0, 0, 100, 200⟩⟩

/-- A concrete helmet detection far away from everything. -/
def loneHelmet : Detection := ⟨"helmet", ⟨1000, 1000, 1010, 1010⟩⟩

/-- The per-frame class_counts dict of `predict_video` (and of
`process_image`): counts of the three recognized labels.  The field
safety_vest models the dict key "safety-vest". -/
structure ClassCounts where
  person : Nat
  helmet : Nat
  safety_vest : Nat
deriving DecidableEq

/-- The `if class_name in class_counts: class_counts[class_name] += 1`
accumulation over a frame's detections. -/
def classCounts (detections : List Detection) : ClassCounts :=
  detections.foldl
    (fun c d =>
      if d.class_name == "person" then { c with person := c.person + 1 }
      else if d.class_name == "helmet" then { c with helmet := c.helmet + 1 }
      else if d.class_name == "safety-vest" then
        { c with safety_vest := c.safety_vest + 1 }
      else c)
    ⟨0, 0, 0⟩

/-- `round(frame_number / fps, 2) if fps > 0 else 0` from
`predict_video`.  The zero-guard is modelled exactly; the 2-decimal
display rounding of the Python float is not modelled (no claim depends
on the rounded digits, and with fps = 0 the guard returns exactly 0). -/
def timestamp_seconds (fps : ℚ) (frame_number : Nat) : ℚ :=
  if 0 < fps then (frame_number : ℚ) / fps else 0

/-- The dict appended to `frame_detections` for each processed frame of
`predict_video`. -/
structure FrameReport where
  frame_number : Nat
  timestamp_sec : ℚ
  detections : List Detection
  summary : ClassCounts
  is_compliant : Bool
deriving DecidableEq

/-- The mutable state of the `while cap.isOpened() and
processed_frames < max_frames` loop of `predict_video`. -/
structure VideoAcc where
  frame_detections : List FrameReport
  frame_number : Nat
  processed_frames : Nat
  total_detections : Nat
  person_counts : List Nat
  helmet_counts : List Nat
  vest_counts : List Nat
  compliant_frames : Nat
  non_compliant_frames : Nat
deriving DecidableEq

/-- All loop counters and accumulators start at zero / empty. -/
def initAcc : VideoAcc := ⟨[], 0, 0, 0, [], [], [], 0, 0⟩

/-- The frame loop of `predict_video`.  A frame of the stream is
modelled by the detection list the external inference step returns for
it (the model call is the boundary to the inference collaborator).  The
budget test happens before each read, a frame is processed only when
`frame_number % sample_rate == 0`, and `frame_number` increments for
every frame read. -/
def videoLoop (fps : ℚ) (sample_rate max_frames : Nat) :
    List (List Detection) → VideoAcc → VideoAcc
  | [], acc => acc
  | frame :: rest, acc =>
    if acc.processed_frames < max_frames then
      let acc' :=
        if acc.frame_number % sample_rate == 0 then
          let detections := frame
          let class_counts := classCounts detections
          let compliance := check_compliance detections
          let is_compliant := compliance.is_compliant
          { frame_detections := acc.frame_detections ++
              [⟨acc.frame_number, timestamp_seconds fps acc.frame_number,
                detections, class_counts, is_compliant⟩]
            frame_number := acc.frame_number
            processed_frames := acc.processed_frames + 1
            total_detections := acc.total_detections + detections.length
            person_counts := acc.person_counts ++ [class_counts.person]
            helmet_counts := acc.helmet_counts ++ [class_counts.helmet]
            vest_counts := acc.vest_counts ++ [class_counts.safety_vest]
            compliant_frames := acc.compliant_frames + (if is_compliant then 1 else 0)
            non_compliant_frames :=
              acc.non_compliant_frames + (if is_compliant then 0 else 1) }
        else acc
      videoLoop fps sample_rate max_frames rest
        { acc' with frame_number := acc'.frame_number + 1 }
    else acc

/-- The fields of the `VideoProcessingResponse` that the claims are
about.  `frame_detections` is the response's capped list; the rate and
average fields are modelled as exact rationals before the 2-decimal
display rounding that `round(..., 2)` applies in the response. -/
structure VideoResult where
  total_frames : Nat
  processed_frames : Nat
  frame_detections : List FrameReport
  total_detections : Nat
  avg_person_count : ℚ
  avg_helmet_count : ℚ
  avg_vest_count : ℚ
  compliant_frames : Nat
  non_compliant_frames : Nat
  compliance_rate : ℚ
deriving DecidableEq

/-- `predict_video` from `backend/app_enhanced.py`, restricted to its
pure frame-aggregation core: the stream is the finite list of frames
(each given by its inference result), and the OpenCV
CAP_PROP_FRAME_COUNT hint is modelled as the stream's true length. -/
def predict_video (frames : List (List Detection)) (fps : ℚ)
    (sample_rate max_frames : Nat) : VideoResult :=
  let acc := videoLoop fps sample_rate max_frames frames initAcc
  let avg_person : ℚ :=
    if acc.person_counts.isEmpty then 0
    else (acc.person_counts.sum : ℚ) / acc.person_counts.length
  let avg_helmet : ℚ :=
    if acc.helmet_counts.isEmpty then 0
    else (acc.helmet_counts.sum : ℚ) / acc.helmet_counts.length
  let avg_vest : ℚ :=
    if acc.vest_counts.isEmpty then 0
    else (acc.vest_counts.sum : ℚ) / acc.vest_counts.length
  let compliance_rate : ℚ :=
    if 0 < acc.processed_frames then
      (acc.compliant_frames : ℚ) / acc.processed_frames * 100
    else 0
  { total_frames := frames.length
    processed_frames := acc.processed_frames
    frame_detections := acc.frame_detections.take 50
    total_detections := acc.total_detections
    avg_person_count := avg_person
    avg_helmet_count := avg_helmet
    avg_vest_count := avg_vest
    compliant_frames := acc.compliant_frames
    non_compliant_frames := acc.non_compliant_frames
    compliance_rate := compliance_rate }

/-- Spec-side invariant tying the running aggregates of the video loop
to the full list of processed frame reports: the counters and count
lists are exactly what recomputing them from `frame_detections` gives. -/
def accConsistent (acc : VideoAcc) : Prop :=
  acc.processed_frames = acc.frame_detections.length ∧
  acc.compliant_frames = acc.frame_detections.countP (fun fr => fr.is_compliant) ∧
  acc.non_compliant_frames
      = acc.frame_detections.countP (fun fr => !fr.is_compliant) ∧
  acc.person_counts = acc.frame_detections.map (fun fr => fr.summary.person) ∧
  acc.helmet_counts = acc.frame_detections.map (fun fr => fr.summary.helmet) ∧
  acc.vest_counts = acc.frame_detections.map (fun fr => fr.summary.safety_vest) ∧
  acc.total_detections
      = (acc.frame_detections.map (fun fr => fr.detections.length)).sum

/-- The columns of a stored DetectionRecord row (`database.py`) that
`get_analytics` reads.  `timestamp_date` models
`record.timestamp.date().isoformat()`, the daily-bucket key; the two
nullable compliance columns are Options. -/
structure DetectionRecord where
  timestamp_date : String
  total_detections : Nat
  person_count : Nat
  helmet_count : Nat
  vest_count : Nat
  processing_time_ms : ℚ
  is_compliant : Option Bool
  compliance_message : Option String
deriving DecidableEq

/-- Python truthiness of the nullable boolean column `is_compliant`:
None and False are falsy, True is truthy. -/
def pyTruthy : Option Bool → Bool
  | none => false
  | some b => b

/-- Python truthiness of the nullable string column
`compliance_message`: None and the empty string are falsy. -/
def msgTruthy : Option String → Bool
  | none => false
  | some s => !(s == "")

/-- One entry of the `top_violations` list:
`{"violation": k, "count": v}`. -/
structure ViolationEntry where
  violation : String
  count : Nat
deriving DecidableEq

/-- One daily bucket of `detection_trends`. -/
structure TrendBucket where
  date : String
  requests : Nat
  detections : Nat
  persons : Nat
  helmets : Nat
  vests : Nat
deriving DecidableEq

/-- The `date_range` dict; the field `stop` models the dict key "end"
(a Lean keyword), and `days` holds `str(days)`. -/
structure DateRange where
  start : String
  stop : String
  days : String
deriving DecidableEq

/-- The `summary` dict of a nonempty analytics report. -/
structure SummaryStats where
  total_detections : Nat
  total_persons : Nat
  total_helmets : Nat
  total_vests : Nat
  avg_detections_per_request : ℚ
deriving DecidableEq

/-- The `compliance_statistics` dict of a nonempty analytics report. -/
structure ComplianceStats where
  total_checks : Nat
  compliant : Nat
  non_compliant : Nat
  compliance_rate_percent : ℚ
deriving DecidableEq

/-- The `performance_metrics` dict of a nonempty analytics report. -/
structure PerformanceMetrics where
  avg_processing_time_ms : ℚ
  min_processing_time_ms : ℚ
  max_processing_time_ms : ℚ
deriving DecidableEq

/-- The dict returned by `get_analytics`.  In the empty-window branch
the source returns literal empty dicts for summary,
compliance_statistics and performance_metrics; those are modelled as
`none`. -/
structure AnalyticsReport where
  total_requests : Nat
  date_range : DateRange
  summary : Option SummaryStats
  compliance_statistics : Option ComplianceStats
  top_violations : List ViolationEntry
  detection_trends : List TrendBucket
  performance_metrics : Option PerformanceMetrics
deriving DecidableEq

/-- `violations[msg] = violations.get(msg, 0) + 1` on an
insertion-ordered dict modelled as a list: bump the first entry with
this key, or append a fresh entry with count 1. -/
def tallyInsert : List ViolationEntry → String → List ViolationEntry
  | [], msg => [⟨msg, 1⟩]
  | e :: es, msg =>
    if e.violation == msg then ⟨e.violation, e.count + 1⟩ :: es
    else e :: tallyInsert es msg

/-- The `violations` dict built by the tally loop of `get_analytics`:
one pass over the records, counting occurrences per distinct message
for every record with falsy is_compliant and truthy
compliance_message. -/
def violationTally (records : List DetectionRecord) : List ViolationEntry :=
  records.foldl
    (fun acc r =>
      if !(pyTruthy r.is_compliant) && msgTruthy r.compliance_message then
        tallyInsert acc (r.compliance_message.getD "")
      else acc)
    []

/-- The count a message holds in the tally (0 when absent). -/
def entryCount (l : List ViolationEntry) (msg : String) : Nat :=
  match l.find? (fun e => e.violation == msg) with
  | some e => e.count
  | none => 0

/-- Stable insertion: x goes in front of the first element y with
`le x y`; on ties (`le` both ways) the earlier element stays first. -/
def insertSorted {α : Type} (le : α → α → Bool) (x : α) : List α → List α
  | [] => [x]
  | y :: ys => if le x y then x :: y :: ys else y :: insertSorted le x ys

/-- Stable insertion sort.  Python's `sorted` is a stable sort, and a
stable sort by a fixed key has a unique result, so this models
`sorted(...)` exactly for the total preorders used below. -/
def stableSort {α : Type} (le : α → α → Bool) (l : List α) : List α :=
  l.foldr (insertSorted le) []

/-- The order of `sorted(violations.items(), key=lambda x: x[1],
reverse=True)`: descending count. -/
def countGe (a b : ViolationEntry) : Bool :=
  decide (b.count ≤ a.count)

/-- The order of `sorted(daily_stats.values(), key=lambda x:
x["date"])`: ascending date string. -/
def dateLe (a b : TrendBucket) : Bool :=
  !(decide (b.date < a.date))

/-- The `daily_stats` accumulation of `get_analytics`, one record at a
time into insertion-ordered buckets keyed by calendar date. -/
def bumpTrend : List TrendBucket → DetectionRecord → List TrendBucket
  | [], r => [⟨r.timestamp_date, 1, r.total_detections, r.person_count,
      r.helmet_count, r.vest_count⟩]
  | b :: bs, r =>
    if b.date == r.timestamp_date then
      ⟨b.date, b.requests + 1, b.detections + r.total_detections,
        b.persons + r.person_count, b.helmets + r.helmet_count,
        b.vests + r.vest_count⟩ :: bs
    else b :: bumpTrend bs r

/-- `get_analytics(db, days, endpoint)` from `backend/utils.py`,
restricted to its pure aggregation core: `records` is the window the
store query returns (time and endpoint filtering is the store's job),
and the two iso-format timestamps of `date_range` are passed in as the
opaque strings the source computes from `datetime.utcnow()`.  The
`round(..., 2)` display rounding of rates and averages is not
modelled; the rationals are exact. -/
def get_analytics (records : List DetectionRecord)
    (start_date now_iso : String) (days : Nat) : AnalyticsReport :=
  match records with
  | [] =>
    { total_requests := 0
      date_range := ⟨start_date, now_iso, toString days⟩
      summary := none
      compliance_statistics := none
      top_violations := []
      detection_trends := []
      performance_metrics := none }
  | r0 :: rest =>
    let total_requests := (r0 :: rest).length
    let total_detections := ((r0 :: rest).map (fun r => r.total_detections)).sum
    let total_persons := ((r0 :: rest).map (fun r => r.person_count)).sum
    let total_helmets := ((r0 :: rest).map (fun r => r.helmet_count)).sum
    let total_vests := ((r0 :: rest).map (fun r => r.vest_count)).sum
    let compliance_records :=
      (r0 :: rest).filter (fun r => !(r.is_compliant == none))
    let compliant_count :=
      compliance_records.countP (fun r => pyTruthy r.is_compliant)
    let compliance_rate : ℚ :=
      if compliance_records.isEmpty then 0
      else (compliant_count : ℚ) / (compliance_records.length : ℚ) * 100
    let avg_processing_time : ℚ :=
      (((r0 :: rest).map (fun r => r.processing_time_ms)).sum) / (total_requests : ℚ)
    let min_processing_time :=
      (rest.map (fun r => r.processing_time_ms)).foldl min r0.processing_time_ms
    let max_processing_time :=
      (rest.map (fun r => r.processing_time_ms)).foldl max r0.processing_time_ms
    let top_violations := (stableSort countGe (violationTally (r0 :: rest))).take 5
    let detection_trends := stableSort dateLe ((r0 :: rest).foldl bumpTrend [])
    { total_requests := total_requests
      date_range := ⟨start_date, now_iso, toString days⟩
      summary := some ⟨total_detections, total_persons, total_helmets, total_vests,
        (total_detections : ℚ) / (total_requests : ℚ)⟩
      compliance_statistics := some ⟨compliance_records.length, compliant_count,
        compliance_records.length - compliant_count, compliance_rate⟩
      top_violations := top_violations
      detection_trends := detection_trends
      performance_metrics := some ⟨avg_processing_time, min_processing_time,
        max_processing_time⟩ }

/-- A concrete compliance-checked non-compliant record. -/
def recNC : DetectionRecord :=
  ⟨"2026-01-01", 3, 1, 1, 1, 10, some false, some "2 PPE violation(s) detected"⟩

/-- A concrete compliance-checked compliant record. -/
def recOK : DetectionRecord :=
  ⟨"2026-01-02", 3, 1, 1, 1, 12, some true,
    some "All 1 person(s) are wearing required PPE"⟩

/-- A concrete record whose compliance was never checked: both nullable
columns are None, as `save_detection_record` writes them. -/
def recUnchecked : DetectionRecord :=
  ⟨"2026-01-03", 2, 0, 1, 1, 8, none, none⟩

/-- The report the video loop emits for an empty frame 0 read with
fps = 0: its timestamp is the guarded computation at fps 0. -/
def frameReport0 : FrameReport :=
  ⟨0, timestamp_seconds 0 0, [], ⟨0, 0, 0⟩, true⟩

/-- Spec-side for C9: the record is non-compliant (compliance was
checked and is false) and carries this specific non-empty compliance
message. -/
def nonCompliantWithMsg (msg : String) (r : DetectionRecord) : Bool :=
  match r.is_compliant, r.compliance_message with
  | some false, some s => (s == msg) && !(s == "")
  | _, _ => false

end PPE

namespace PPE

/-- The association test, characterised: true iff the rectangles
intersect with inclusive boundary, or the squared center distance is
strictly below 50². -/
theorem boxes_overlap_or_close_iff (d1 d2 : Detection) :
    boxes_overlap_or_close d1 d2 = true ↔
      rectsIntersect d1.bounding_box d2.bounding_box ∨
        centerDistSq d1.bounding_box d2.bounding_box < 50 ^ 2 := by
  simp only [boxes_overlap_or_close, rectsIntersect, centerDistSq]
  split
  · rename_i hsep
    push_neg at hsep
    exact iff_of_true rfl (Or.inl ⟨hsep.1, hsep.2.1, hsep.2.2.1, hsep.2.2.2⟩)
  · rename_i hsep
    rw [not_not] at hsep
    constructor
    · intro hd
      exact Or.inr (by simpa using hd)
    · rintro (⟨h1, h2, h3, h4⟩ | hdist)
      · rcases hsep with h | h | h | h
        · exact absurd h1 (not_le.mpr h)
        · exact absurd h2 (not_le.mpr h)
        · exact absurd h3 (not_le.mpr h)
        · exact absurd h4 (not_le.mpr h)
      · simpa using hdist

/-- Claim C1: the association test returns true iff the rectangles
intersect (inclusive boundary) or the squared center distance is
strictly below 50², i.e. the Euclidean center distance is strictly
below 50 pixels; two disjoint boxes whose centers are exactly 50 px
apart test false; and a person has a given kind of equipment iff some
equipment detection passes the test against the person's box. -/
theorem boxes_overlap_or_close_spec :
    (∀ d1 d2 : Detection,
      boxes_overlap_or_close d1 d2 = true ↔
        rectsIntersect d1.bounding_box d2.bounding_box ∨
          centerDistSq d1.bounding_box d2.bounding_box < 50 ^ 2)
    ∧ boxes_overlap_or_close personBox helmetAt50 = false
    ∧ (∀ (p : Detection) (es : List Detection),
      has_ppe p es = true ↔ ∃ e ∈ es, boxes_overlap_or_close p e = true) := by
  refine ⟨boxes_overlap_or_close_iff, ?_, ?_⟩
  · rw [Bool.eq_false_iff]
    intro htrue
    rcases (boxes_overlap_or_close_iff personBox helmetAt50).mp htrue with hint | hdist
    · norm_num [personBox, helmetAt50, rectsIntersect] at hint
    · norm_num [personBox, helmetAt50, centerDistSq] at hdist
  · intro p es
    simp [has_ppe, List.any_eq_true]

/-- Closed form of the per-person loop: its final state appends, per
person in order, the helmet violation then the vest violation, and its
counters count the persons passing each association test. -/
theorem complianceLoop_eq (helmets vests : List Detection) (ps : List Detection) :
    ∀ (i : Nat) (s : LoopState),
      complianceLoop helmets vests i ps s =
        ⟨s.violations ++ (List.enumFrom i ps).flatMap
            (fun ip => personViolations helmets vests ip.1 ip.2),
          s.persons_with_helmet + ps.countP (fun p => has_ppe p helmets),
          s.persons_with_vest + ps.countP (fun p => has_ppe p vests),
          s.fully_compliant
            + ps.countP (fun p => has_ppe p helmets && has_ppe p vests)⟩ := by
  induction ps with
  | nil => intro i s; simp [complianceLoop, List.enumFrom]
  | cons p ps ih =>
    intro i s
    simp only [complianceLoop]
    rw [ih]
    simp only [complianceStep, personViolations, List.enumFrom, List.flatMap_cons,
      List.countP_cons, LoopState.mk.injEq]
    refine ⟨by simp, ?_, ?_, ?_⟩ <;>
      cases hh : has_ppe p helmets <;> cases hv : has_ppe p vests <;> simp <;> omega

/-- A Bool-implication between predicates bounds the counts. -/
theorem countP_le_countP_of_imp {α : Type} (l : List α) (p q : α → Bool)
    (h : ∀ a, p a = true → q a = true) : l.countP p ≤ l.countP q := by
  induction l with
  | nil => simp
  | cons a l ih =>
    simp only [List.countP_cons]
    by_cases hp : p a = true
    · simp [hp, h a hp]; omega
    · have : p a = false := by simpa using hp
      simp [this]
      rcases hq : q a <;> simp <;> omega

/-- Each person contributes one violation per missing equipment kind:
the total length of the per-person violation fragments plus the two
pass counters is twice the number of persons. -/
theorem enumBind_personViolations_length (helmets vests : List Detection)
    (ps : List Detection) : ∀ i : Nat,
    ((List.enumFrom i ps).flatMap
        (fun ip => personViolations helmets vests ip.1 ip.2)).length
      + ps.countP (fun p => has_ppe p helmets)
      + ps.countP (fun p => has_ppe p vests)
      = 2 * ps.length := by
  induction ps with
  | nil => intro i; simp [List.enumFrom]
  | cons p ps ih =>
    intro i
    have ihx := ih (i + 1)
    have hb : (List.enumFrom i (p :: ps)).flatMap
          (fun ip => personViolations helmets vests ip.1 ip.2)
        = personViolations helmets vests i p
          ++ (List.enumFrom (i + 1) ps).flatMap
              (fun ip => personViolations helmets vests ip.1 ip.2) := rfl
    rw [hb, List.length_append, List.countP_cons, List.countP_cons, List.length_cons]
    generalize hL : ((List.enumFrom (i + 1) ps).flatMap
        (fun ip => personViolations helmets vests ip.1 ip.2)).length = L at ihx ⊢
    cases hh : has_ppe p helmets <;> cases hv : has_ppe p vests <;>
      simp [personViolations, hh, hv] <;> omega

/-- A nonempty list has isEmpty false. -/
theorem isEmpty_false_of_ne_nil {α : Type} {l : List α} (h : l ≠ []) :
    l.isEmpty = false := by
  cases l with
  | nil => exact absurd rfl h
  | cons a l => rfl

/-- Looking up each key of the six-entry details dict built by the
main branch of `check_compliance`. -/
theorem details_lookup_total_persons (a b c d e f : Nat) :
    List.lookup "total_persons"
      [("total_persons", a), ("persons_with_helmet", b), ("persons_with_vest", c),
        ("fully_compliant", d), ("total_helmets", e), ("total_vests", f)] = some a := rfl

theorem details_lookup_pwh (a b c d e f : Nat) :
    List.lookup "persons_with_helmet"
      [("total_persons", a), ("persons_with_helmet", b), ("persons_with_vest", c),
        ("fully_compliant", d), ("total_helmets", e), ("total_vests", f)] = some b := rfl

theorem details_lookup_pwv (a b c d e f : Nat) :
    List.lookup "persons_with_vest"
      [("total_persons", a), ("persons_with_helmet", b), ("persons_with_vest", c),
        ("fully_compliant", d), ("total_helmets", e), ("total_vests", f)] = some c := rfl

theorem details_lookup_fc (a b c d e f : Nat) :
    List.lookup "fully_compliant"
      [("total_persons", a), ("persons_with_helmet", b), ("persons_with_vest", c),
        ("fully_compliant", d), ("total_helmets", e), ("total_vests", f)] = some d := rfl

theorem details_lookup_th (a b c d e f : Nat) :
    List.lookup "total_helmets"
      [("total_persons", a), ("persons_with_helmet", b), ("persons_with_vest", c),
        ("fully_compliant", d), ("total_helmets", e), ("total_vests", f)] = some e := rfl

theorem details_lookup_tv (a b c d e f : Nat) :
    List.lookup "total_vests"
      [("total_persons", a), ("persons_with_helmet", b), ("persons_with_vest", c),
        ("fully_compliant", d), ("total_helmets", e), ("total_vests", f)] = some f := rfl

/-- Claim C2: with at least one person, the violations list is exactly
the concatenation, over persons in input order with 1-based indices, of
that person's helmet violation (if any) followed by their vest
violation (if any). -/
theorem check_compliance_violations_structure (detections : List Detection)
    (h : personsOf detections ≠ []) :
    (check_compliance detections).violations =
      (List.enumFrom 1 (personsOf detections)).flatMap
        (fun ip =>
          personViolations (helmetsOf detections) (vestsOf detections) ip.1 ip.2) := by
  unfold check_compliance
  simp [isEmpty_false_of_ne_nil h, complianceLoop_eq]

/-- Witness for C2 at a concrete one-person input. -/
theorem check_compliance_violations_structure_witness :
    (check_compliance [barePerson]).violations =
      (List.enumFrom 1 (personsOf [barePerson])).flatMap
        (fun ip =>
          personViolations (helmetsOf [barePerson]) (vestsOf [barePerson]) ip.1 ip.2) :=
  check_compliance_violations_structure [barePerson] (by decide)

/-- Counterexample for C3 as frozen: the empty detection set is
compliant, yet its message is "No persons detected", not
"All 0 person(s) are wearing required PPE" as the claim's message rule
would require for a compliant set. -/
theorem check_compliance_message_counterexample :
    (check_compliance []).is_compliant = true ∧
      (check_compliance []).message ≠ "All 0 person(s) are wearing required PPE" ∧
      (check_compliance []).message = "No persons detected" := by
  decide

/-- Claim C3 (amended): is_compliant is true iff the violations list is
empty, for every detection set; the message is
"All n person(s) are wearing required PPE" or
"k PPE violation(s) detected" only when at least one person was
detected, while zero-person sets get the message "No persons detected".
The concrete conjunct shows 2 persons, 0 helmets, 0 vests giving 4
violations and the "4 PPE violation(s) detected" message. -/
theorem check_compliance_message_spec (detections : List Detection) :
    ((check_compliance detections).is_compliant = true ↔
      (check_compliance detections).violations = [])
    ∧ (check_compliance detections).message =
      (if (personsOf detections).isEmpty then "No persons detected"
       else if (check_compliance detections).violations.isEmpty then
         "All " ++ toString (personsOf detections).length
           ++ " person(s) are wearing required PPE"
       else
         toString (check_compliance detections).violations.length
           ++ " PPE violation(s) detected")
    ∧ ((check_compliance [barePerson, personBox]).violations.length = 4
        ∧ (check_compliance [barePerson, personBox]).is_compliant = false
        ∧ (check_compliance [barePerson, personBox]).message
            = "4 PPE violation(s) detected") := by
  refine ⟨?_, ?_, ?_, ?_, ?_⟩
  · unfold check_compliance
    by_cases hp : (personsOf detections).isEmpty = true
    · simp [hp]
    · have hb : (personsOf detections).isEmpty = false := by
        simpa using hp
      simp [hb, List.length_eq_zero]
  · unfold check_compliance
    by_cases hp : (personsOf detections).isEmpty = true
    · simp [hp]
    · have hb : (personsOf detections).isEmpty = false := by
        simpa using hp
      simp only [hb, Bool.false_eq_true, if_false]
      cases hsv : (complianceLoop (helmetsOf detections) (vestsOf detections) 1
          (personsOf detections) ⟨[], 0, 0, 0⟩).violations <;>
        simp [hsv]
  · decide
  · decide
  · decide

/-- Counterexample for C4 as frozen: on a zero-person detection set the
details dict has no "total_helmets" and no "total_vests" key at all
(here even though the input does contain a helmet), so not all of the
six ComplianceVerdict detail counters are present. -/
theorem check_compliance_no_person_details_counterexample :
    personsOf [loneHelmet] = [] ∧
      helmetsOf [loneHelmet] = [loneHelmet] ∧
      (check_compliance [loneHelmet]).details.lookup "total_helmets" = none ∧
      (check_compliance [loneHelmet]).details.lookup "total_vests" = none := by
  decide

/-- Claim C4 (amended): on a zero-person detection set,
`check_compliance` returns is_compliant true, message
"No persons detected", empty violations and warnings, and a details
dict holding exactly the four counters total_persons,
persons_with_helmet, persons_with_vest and fully_compliant at 0 — the
total_helmets and total_vests counters are absent in this branch. -/
theorem check_compliance_no_person_verdict (detections : List Detection)
    (h : personsOf detections = []) :
    check_compliance detections =
      ⟨true, "No persons detected",
        [("total_persons", 0), ("persons_with_helmet", 0),
          ("persons_with_vest", 0), ("fully_compliant", 0)], [], []⟩ := by
  unfold check_compliance
  simp [h]

/-- Witness for C4's amended theorem at a concrete zero-person input. -/
theorem check_compliance_no_person_verdict_witness :
    check_compliance [loneHelmet] =
      ⟨true, "No persons detected",
        [("total_persons", 0), ("persons_with_helmet", 0),
          ("persons_with_vest", 0), ("fully_compliant", 0)], [], []⟩ :=
  check_compliance_no_person_verdict [loneHelmet] (by decide)

/-- Claim C10: with at least one person, the verdict's detail counters
match the label counts of the input, fully_compliant is at most
min(persons_with_helmet, persons_with_vest), that min is at most
total_persons, and the violations count is
2·total_persons − persons_with_helmet − persons_with_vest. -/
theorem check_compliance_details_invariant (detections : List Detection)
    (h : personsOf detections ≠ []) :
    detailNat (check_compliance detections) "total_persons"
        = detections.countP (fun d => d.class_name == "person")
    ∧ detailNat (check_compliance detections) "total_helmets"
        = detections.countP (fun d => d.class_name == "helmet")
    ∧ detailNat (check_compliance detections) "total_vests"
        = detections.countP (fun d => d.class_name == "safety-vest")
    ∧ detailNat (check_compliance detections) "fully_compliant"
        ≤ min (detailNat (check_compliance detections) "persons_with_helmet")
            (detailNat (check_compliance detections) "persons_with_vest")
    ∧ min (detailNat (check_compliance detections) "persons_with_helmet")
          (detailNat (check_compliance detections) "persons_with_vest")
        ≤ detailNat (check_compliance detections) "total_persons"
    ∧ (check_compliance detections).violations.length
        = 2 * detailNat (check_compliance detections) "total_persons"
          - detailNat (check_compliance detections) "persons_with_helmet"
          - detailNat (check_compliance detections) "persons_with_vest" := by
  have hb := isEmpty_false_of_ne_nil h
  unfold check_compliance detailNat
  simp only [hb, Bool.false_eq_true, if_false, complianceLoop_eq, Nat.zero_add,
    details_lookup_total_persons, details_lookup_pwh, details_lookup_pwv,
    details_lookup_fc, details_lookup_th, details_lookup_tv, Option.getD_some]
  refine ⟨by simp [personsOf, List.countP_eq_length_filter],
    by simp [helmetsOf, List.countP_eq_length_filter],
    by simp [vestsOf, List.countP_eq_length_filter], ?_, ?_, ?_⟩
  · exact le_min
      (countP_le_countP_of_imp _ _ _
        (fun a ha => by simpa using (Bool.and_elim_left (by simpa using ha))))
      (countP_le_countP_of_imp _ _ _
        (fun a ha => by simpa using (Bool.and_elim_right (by simpa using ha))))
  · calc min (List.countP (fun p => has_ppe p (helmetsOf detections))
            (personsOf detections))
          (List.countP (fun p => has_ppe p (vestsOf detections))
            (personsOf detections))
        ≤ List.countP (fun p => has_ppe p (helmetsOf detections))
            (personsOf detections) := min_le_left _ _
      _ ≤ (personsOf detections).length := List.countP_le_length _
  · have hlen := enumBind_personViolations_length (helmetsOf detections)
      (vestsOf detections) (personsOf detections) 1
    simp only [List.nil_append]
    omega

/-- Witness for C10 at a concrete input: one bare person plus one
distant helmet. -/
theorem check_compliance_details_invariant_witness :
    detailNat (check_compliance [barePerson, loneHelmet]) "total_persons"
        = List.countP (fun d => d.class_name == "person") [barePerson, loneHelmet]
    ∧ (check_compliance [barePerson, loneHelmet]).violations.length
        = 2 * detailNat (check_compliance [barePerson, loneHelmet]) "total_persons"
          - detailNat (check_compliance [barePerson, loneHelmet]) "persons_with_helmet"
          - detailNat (check_compliance [barePerson, loneHelmet]) "persons_with_vest" :=
  ⟨(check_compliance_details_invariant [barePerson, loneHelmet] (by decide)).1,
    (check_compliance_details_invariant [barePerson, loneHelmet] (by decide)).2.2.2.2.2⟩

/-- The frame numbers of all processed frames: starting from any loop
state, the loop appends exactly the frame numbers of the remaining
stream that pass the `frame_number % sample_rate == 0` test, truncated
at the remaining processed-frame budget. -/
theorem videoLoop_frame_numbers (fps : ℚ) (sr mf : Nat) :
    ∀ (frames : List (List Detection)) (acc : VideoAcc),
      (videoLoop fps sr mf frames acc).frame_detections.map
          FrameReport.frame_number =
        acc.frame_detections.map FrameReport.frame_number ++
          ((List.range' acc.frame_number frames.length).filter
              (fun n => n % sr == 0)).take (mf - acc.processed_frames) := by
  intro frames
  induction frames with
  | nil =>
    intro acc
    simp [videoLoop]
  | cons frame rest ih =>
    intro acc
    by_cases hbud : acc.processed_frames < mf
    · by_cases hsam : (acc.frame_number % sr == 0) = true
      · have hmf : mf - acc.processed_frames
            = (mf - (acc.processed_frames + 1)) + 1 := by omega
        simp only [videoLoop, if_pos hbud, hsam, if_true, List.length_cons,
          List.range'_succ, hmf]
        rw [List.filter_cons_of_pos (by simpa using hsam), List.take_succ_cons, ih]
        simp [List.append_assoc]
      · have hsam' : (acc.frame_number % sr == 0) = false := by
          simpa using hsam
        simp only [videoLoop, if_pos hbud, hsam', Bool.false_eq_true, if_false,
          List.length_cons, List.range'_succ]
        rw [List.filter_cons_of_neg (by simpa using hsam'), ih]
    · have hmf : mf - acc.processed_frames = 0 := by omega
      simp [videoLoop, hbud, hmf]

/-- The video loop preserves the aggregate-consistency invariant. -/
theorem videoLoop_consistent (fps : ℚ) (sr mf : Nat) :
    ∀ (frames : List (List Detection)) (acc : VideoAcc),
      accConsistent acc → accConsistent (videoLoop fps sr mf frames acc) := by
  intro frames
  induction frames with
  | nil => intro acc h; simpa [videoLoop] using h
  | cons frame rest ih =>
    intro acc h
    by_cases hbud : acc.processed_frames < mf
    · by_cases hsam : (acc.frame_number % sr == 0) = true
      · simp only [videoLoop, if_pos hbud, hsam, if_true]
        apply ih
        obtain ⟨h1, h2, h3, h4, h5, h6, h7⟩ := h
        unfold accConsistent
        cases hic : (check_compliance frame).is_compliant <;>
          simp [h1, h2, h3, h4, h5, h6, h7, hic, List.countP_append,
            List.countP_cons, List.map_append, List.sum_append]
      · have hsam' : (acc.frame_number % sr == 0) = false := by
          simpa using hsam
        simp only [videoLoop, if_pos hbud, hsam', Bool.false_eq_true, if_false]
        apply ih
        obtain ⟨h1, h2, h3, h4, h5, h6, h7⟩ := h
        exact ⟨h1, h2, h3, h4, h5, h6, h7⟩
    · simpa [videoLoop, hbud] using h

/-- Claim C5: the video loop processes exactly the frames whose
zero-based frame_number is a multiple of sample_rate, in order,
stopping at stream exhaustion or when the processed-frame budget
max_frames is reached (skipped frames cost nothing against the
budget); concretely, sample_rate 2 over 10 frames with budget 100
processes frames 0,2,4,6,8, and budget 3 with sample_rate 1 over 100
frames processes exactly 3 frames while total_frames stays 100. -/
theorem predict_video_sampling (frames : List (List Detection)) (fps : ℚ)
    (sample_rate max_frames : Nat)
    (hs : 1 ≤ sample_rate) (hm : 1 ≤ max_frames) :
    ((videoLoop fps sample_rate max_frames frames initAcc).frame_detections.map
        FrameReport.frame_number =
      ((List.range frames.length).filter
          (fun n => n % sample_rate == 0)).take max_frames)
    ∧ ((predict_video frames fps sample_rate max_frames).processed_frames =
        (((List.range frames.length).filter
            (fun n => n % sample_rate == 0)).take max_frames).length)
    ∧ ((predict_video (List.replicate 10 []) 30 2 100).processed_frames = 5
        ∧ (videoLoop 30 2 100 (List.replicate 10 []) initAcc).frame_detections.map
            FrameReport.frame_number = [0, 2, 4, 6, 8])
    ∧ ((predict_video (List.replicate 100 []) 30 1 3).processed_frames = 3
        ∧ (predict_video (List.replicate 100 []) 30 1 3).total_frames = 100) := by
  have hfn : (videoLoop fps sample_rate max_frames frames initAcc).frame_detections.map
      FrameReport.frame_number =
      ((List.range frames.length).filter
          (fun n => n % sample_rate == 0)).take max_frames := by
    have := videoLoop_frame_numbers fps sample_rate max_frames frames initAcc
    simpa [initAcc, List.range_eq_range'] using this
  have hcons := videoLoop_consistent fps sample_rate max_frames frames initAcc
    (by simp [accConsistent, initAcc])
  refine ⟨hfn, ?_, by decide, by decide⟩
  have hlen : (videoLoop fps sample_rate max_frames frames initAcc).processed_frames
      = (videoLoop fps sample_rate max_frames frames initAcc).frame_detections.length :=
    hcons.1
  calc (predict_video frames fps sample_rate max_frames).processed_frames
      = (videoLoop fps sample_rate max_frames frames initAcc).processed_frames := rfl
    _ = (videoLoop fps sample_rate max_frames
          frames initAcc).frame_detections.length := hlen
    _ = ((videoLoop fps sample_rate max_frames frames initAcc).frame_detections.map
          FrameReport.frame_number).length := (List.length_map _ _).symm
    _ = (((List.range frames.length).filter
          (fun n => n % sample_rate == 0)).take max_frames).length := by rw [hfn]

/-- Witness for C5 at a concrete two-frame stream with sample_rate 1
and budget 2. -/
theorem predict_video_sampling_witness :
    ((videoLoop 1 1 2 [[], []] initAcc).frame_detections.map
        FrameReport.frame_number =
      ((List.range ([[], []] : List (List Detection)).length).filter
          (fun n => n % 1 == 0)).take 2)
    ∧ ((predict_video [[], []] 1 1 2).processed_frames =
        (((List.range ([[], []] : List (List Detection)).length).filter
            (fun n => n % 1 == 0)).take 2).length)
    ∧ ((predict_video (List.replicate 10 []) 30 2 100).processed_frames = 5
        ∧ (videoLoop 30 2 100 (List.replicate 10 []) initAcc).frame_detections.map
            FrameReport.frame_number = [0, 2, 4, 6, 8])
    ∧ ((predict_video (List.replicate 100 []) 30 1 3).processed_frames = 3
        ∧ (predict_video (List.replicate 100 []) 30 1 3).total_frames = 100) :=
  predict_video_sampling [[], []] 1 1 2 (by decide) (by decide)

/-- Claim C6: the response's frame_detections is the first
min(50, processed) processed frame reports in frame_number-ascending
order, while processed_frames, the summary sums/averages, the
compliant/non-compliant tallies and compliance_rate are computed over
all processed frames, including those beyond the 50-entry cap. -/
theorem predict_video_output_cap (frames : List (List Detection)) (fps : ℚ)
    (sample_rate max_frames : Nat) :
    (predict_video frames fps sample_rate max_frames).frame_detections
        = (videoLoop fps sample_rate max_frames frames initAcc).frame_detections.take 50
    ∧ (predict_video frames fps sample_rate max_frames).frame_detections.length
        = min 50
            (videoLoop fps sample_rate max_frames frames initAcc).frame_detections.length
    ∧ List.Pairwise (fun a b => a < b)
        ((videoLoop fps sample_rate max_frames frames initAcc).frame_detections.map
          FrameReport.frame_number)
    ∧ (predict_video frames fps sample_rate max_frames).processed_frames
        = (videoLoop fps sample_rate max_frames frames initAcc).frame_detections.length
    ∧ (predict_video frames fps sample_rate max_frames).compliant_frames
        = (videoLoop fps sample_rate max_frames frames initAcc).frame_detections.countP
            (fun fr => fr.is_compliant)
    ∧ (predict_video frames fps sample_rate max_frames).non_compliant_frames
        = (videoLoop fps sample_rate max_frames frames initAcc).frame_detections.countP
            (fun fr => !fr.is_compliant)
    ∧ (predict_video frames fps sample_rate max_frames).total_detections
        = ((videoLoop fps sample_rate max_frames frames initAcc).frame_detections.map
            (fun fr => fr.detections.length)).sum
    ∧ (predict_video frames fps sample_rate max_frames).avg_person_count
        = (if (videoLoop fps sample_rate max_frames frames initAcc).frame_detections.isEmpty
            then 0
            else (((videoLoop fps sample_rate max_frames frames initAcc).frame_detections.map
                  (fun fr => fr.summary.person)).sum : ℚ)
              / ((videoLoop fps sample_rate max_frames frames initAcc).frame_detections.length : ℚ))
    ∧ (predict_video frames fps sample_rate max_frames).avg_helmet_count
        = (if (videoLoop fps sample_rate max_frames frames initAcc).frame_detections.isEmpty
            then 0
            else (((videoLoop fps sample_rate max_frames frames initAcc).frame_detections.map
                  (fun fr => fr.summary.helmet)).sum : ℚ)
              / ((videoLoop fps sample_rate max_frames frames initAcc).frame_detections.length : ℚ))
    ∧ (predict_video frames fps sample_rate max_frames).avg_vest_count
        = (if (videoLoop fps sample_rate max_frames frames initAcc).frame_detections.isEmpty
            then 0
            else (((videoLoop fps sample_rate max_frames frames initAcc).frame_detections.map
                  (fun fr => fr.summary.safety_vest)).sum : ℚ)
              / ((videoLoop fps sample_rate max_frames frames initAcc).frame_detections.length : ℚ))
    ∧ (predict_video frames fps sample_rate max_frames).compliance_rate
        = (if 0 < (videoLoop fps sample_rate max_frames frames initAcc).frame_detections.length
            then (((videoLoop fps sample_rate max_frames frames initAcc).frame_detections.countP
                  (fun fr => fr.is_compliant) : ℚ))
              / ((videoLoop fps sample_rate max_frames frames initAcc).frame_detections.length : ℚ)
              * 100
            else 0) := by
  obtain ⟨h1, h2, h3, h4, h5, h6, h7⟩ :=
    videoLoop_consistent fps sample_rate max_frames frames initAcc
      (by simp [accConsistent, initAcc])
  have hpair : List.Pairwise (fun a b => a < b)
      ((videoLoop fps sample_rate max_frames frames initAcc).frame_detections.map
        FrameReport.frame_number) := by
    have hfn := videoLoop_frame_numbers fps sample_rate max_frames frames initAcc
    rw [show (initAcc.frame_detections.map FrameReport.frame_number) = [] from rfl,
      List.nil_append, show initAcc.frame_number = 0 from rfl,
      ← List.range_eq_range'] at hfn
    rw [hfn]
    exact List.Pairwise.sublist
      ((List.take_sublist _ _).trans (List.filter_sublist _))
      (List.pairwise_lt_range frames.length)
  refine ⟨rfl, ?_, hpair, h1, h2, h3, h7, ?_, ?_, ?_, ?_⟩
  · show ((videoLoop fps sample_rate max_frames
        frames initAcc).frame_detections.take 50).length = _
    rw [List.length_take]
  · show (if (videoLoop fps sample_rate max_frames
        frames initAcc).person_counts.isEmpty then (0 : ℚ) else _) = _
    rw [h4]
    cases hfd : (videoLoop fps sample_rate max_frames frames initAcc).frame_detections <;>
      simp [Function.comp_def]
  · show (if (videoLoop fps sample_rate max_frames
        frames initAcc).helmet_counts.isEmpty then (0 : ℚ) else _) = _
    rw [h5]
    cases hfd : (videoLoop fps sample_rate max_frames frames initAcc).frame_detections <;>
      simp [Function.comp_def]
  · show (if (videoLoop fps sample_rate max_frames
        frames initAcc).vest_counts.isEmpty then (0 : ℚ) else _) = _
    rw [h6]
    cases hfd : (videoLoop fps sample_rate max_frames frames initAcc).frame_detections <;>
      simp [Function.comp_def]
  · show (if 0 < (videoLoop fps sample_rate max_frames
        frames initAcc).processed_frames then _ else (0 : ℚ)) = _
    rw [h1, h2]

/-- Claim C8: the analytics rollup on an empty record window returns
total_requests 0, every nested aggregate at its empty/zero default
(empty dicts modelled as none, empty lists as []), and a date_range
still populated with start, end and str(days); the early return makes
the division-prone aggregate code unreachable. -/
theorem get_analytics_empty (start_date now_iso : String) (days : Nat) :
    get_analytics [] start_date now_iso days =
      ⟨0, ⟨start_date, now_iso, toString days⟩, none, none, [], [], none⟩ := rfl

/-- With fps = 0 every frame report the loop appends carries
timestamp 0 (the `if fps > 0 else 0` guard). -/
theorem videoLoop_timestamp_zero (sr mf : Nat) :
    ∀ (frames : List (List Detection)) (acc : VideoAcc),
      (∀ fr ∈ acc.frame_detections, fr.timestamp_sec = 0) →
      ∀ fr ∈ (videoLoop 0 sr mf frames acc).frame_detections,
        fr.timestamp_sec = 0 := by
  intro frames
  induction frames with
  | nil => intro acc h; simpa [videoLoop] using h
  | cons frame rest ih =>
    intro acc h
    by_cases hbud : acc.processed_frames < mf
    · by_cases hsam : (acc.frame_number % sr == 0) = true
      · simp only [videoLoop, if_pos hbud, hsam, if_true]
        apply ih
        intro fr hfr
        have hfr' : fr ∈ acc.frame_detections ∨ fr = ⟨acc.frame_number,
            timestamp_seconds 0 acc.frame_number, frame, classCounts frame,
            (check_compliance frame).is_compliant⟩ := by simpa using hfr
        rcases hfr' with hmem | hmem
        · exact h fr hmem
        · rw [hmem]
          simp [timestamp_seconds]
      · have hsam' : (acc.frame_number % sr == 0) = false := by
          simpa using hsam
        simp only [videoLoop, if_pos hbud, hsam', Bool.false_eq_true, if_false]
        apply ih
        intro fr hfr
        exact h fr hfr
    · simpa [videoLoop, hbud] using h

/-- Claim C7: the division-prone computations resolve to zero
defaults: with zero processed frames the compliance rate and the three
average counts are 0; with fps = 0 every processed frame's timestamp
is 0; and with no compliance-checked records in a nonempty window the
analytics compliance statistics are all zero. -/
theorem degenerate_zero_division_defaults :
    (∀ (frames : List (List Detection)) (fps : ℚ) (sr mf : Nat),
      (predict_video frames fps sr mf).processed_frames = 0 →
        (predict_video frames fps sr mf).compliance_rate = 0
        ∧ (predict_video frames fps sr mf).avg_person_count = 0
        ∧ (predict_video frames fps sr mf).avg_helmet_count = 0
        ∧ (predict_video frames fps sr mf).avg_vest_count = 0)
    ∧ (∀ (frames : List (List Detection)) (sr mf : Nat),
        ∀ fr ∈ (videoLoop 0 sr mf frames initAcc).frame_detections,
          fr.timestamp_sec = 0)
    ∧ (∀ (records : List DetectionRecord) (start_date now_iso : String)
          (days : Nat), records ≠ [] →
        records.filter (fun r => !(r.is_compliant == none)) = [] →
        (get_analytics records start_date now_iso days).compliance_statistics
          = some ⟨0, 0, 0, 0⟩) := by
  refine ⟨?_, ?_, ?_⟩
  · intro frames fps sr mf h0
    obtain ⟨h1, h2, h3, h4, h5, h6, h7⟩ :=
      videoLoop_consistent fps sr mf frames initAcc (by simp [accConsistent, initAcc])
    have hp0 : (videoLoop fps sr mf frames initAcc).processed_frames = 0 := h0
    have hfd : (videoLoop fps sr mf frames initAcc).frame_detections = [] := by
      rw [h1] at hp0
      exact List.length_eq_zero.mp hp0
    refine ⟨?_, ?_, ?_, ?_⟩
    · show (if 0 < (videoLoop fps sr mf frames initAcc).processed_frames
          then _ else (0 : ℚ)) = 0
      rw [hp0]
      simp
    · show (if (videoLoop fps sr mf frames initAcc).person_counts.isEmpty
          then (0 : ℚ) else _) = 0
      rw [h4, hfd]
      simp
    · show (if (videoLoop fps sr mf frames initAcc).helmet_counts.isEmpty
          then (0 : ℚ) else _) = 0
      rw [h5, hfd]
      simp
    · show (if (videoLoop fps sr mf frames initAcc).vest_counts.isEmpty
          then (0 : ℚ) else _) = 0
      rw [h6, hfd]
      simp
  · intro frames sr mf
    exact videoLoop_timestamp_zero sr mf frames initAcc (by simp [initAcc])
  · intro records start_date now_iso days hne hfil
    cases records with
    | nil => exact absurd rfl hne
    | cons r0 rest =>
      simp only [get_analytics, hfil]
      simp

/-- Witness for C7: zero-frame video, an fps-0 frame report, and a
one-record window with no compliance-checked record. -/
theorem degenerate_zero_division_defaults_witness :
    ((predict_video [] 30 1 300).compliance_rate = 0
      ∧ (predict_video [] 30 1 300).avg_person_count = 0
      ∧ (predict_video [] 30 1 300).avg_helmet_count = 0
      ∧ (predict_video [] 30 1 300).avg_vest_count = 0)
    ∧ frameReport0.timestamp_sec = 0
    ∧ (get_analytics [recUnchecked] "2026-01-26" "2026-02-02" 7).compliance_statistics
        = some ⟨0, 0, 0, 0⟩ :=
  ⟨degenerate_zero_division_defaults.1 [] 30 1 300 (by decide),
    degenerate_zero_division_defaults.2.1 [[]] 1 1 frameReport0
      (by
        rw [show (videoLoop 0 1 1 [[]] initAcc).frame_detections = [frameReport0]
          from rfl]
        exact List.mem_singleton_self _),
    degenerate_zero_division_defaults.2.2 [recUnchecked] "2026-01-26" "2026-02-02" 7
      (by decide) (by decide)⟩

/-- The count a cons holds: the head's count when its key matches,
otherwise the tail's. -/
theorem entryCount_cons (e : ViolationEntry) (l : List ViolationEntry)
    (msg : String) :
    entryCount (e :: l) msg
      = if e.violation == msg then e.count else entryCount l msg := by
  by_cases h : (e.violation == msg) = true
  · simp [entryCount, List.find?, h]
  · have h' : (e.violation == msg) = false := by simpa using h
    simp [entryCount, List.find?, h']

/-- Bumping a message in the tally raises exactly that message's count
by one and leaves every other count unchanged. -/
theorem entryCount_tallyInsert (m msg : String) :
    ∀ (l : List ViolationEntry),
      entryCount (tallyInsert l m) msg
        = entryCount l msg + (if m == msg then 1 else 0) := by
  intro l
  induction l with
  | nil =>
    rw [show tallyInsert [] m = [⟨m, 1⟩] from rfl, entryCount_cons]
    by_cases h : (m == msg) = true
    · simp [entryCount, h]
    · have h' : (m == msg) = false := by simpa using h
      simp [entryCount, h']
  | cons e es ih =>
    by_cases heb : (e.violation == m) = true
    · rw [show tallyInsert (e :: es) m = ⟨e.violation, e.count + 1⟩ :: es from by
        simp [tallyInsert, heb]]
      rw [entryCount_cons, entryCount_cons]
      by_cases hvm : (e.violation == msg) = true
      · have h1 : e.violation = m := by simpa using heb
        have h2 : e.violation = msg := by simpa using hvm
        have hm2 : (m == msg) = true := by simp [← h1, h2]
        simp [hvm, hm2]
      · have hvm' : (e.violation == msg) = false := by simpa using hvm
        have h1 : e.violation = m := by simpa using heb
        have hm2 : (m == msg) = false := by rw [← h1]; exact hvm'
        simp [hvm', hm2]
    · have heb' : (e.violation == m) = false := by simpa using heb
      rw [show tallyInsert (e :: es) m = e :: tallyInsert es m from by
        simp [tallyInsert, heb']]
      rw [entryCount_cons, entryCount_cons, ih]
      by_cases hvm : (e.violation == msg) = true
      · have h2 : e.violation = msg := by simpa using hvm
        have h1 : ¬ e.violation = m := by simpa using heb'
        have hm2 : (m == msg) = false := by
          simp only [beq_eq_false_iff_ne, ne_eq]
          intro hc
          exact h1 (by rw [h2, hc])
        simp [hvm, hm2]
      · have hvm' : (e.violation == msg) = false := by simpa using hvm
        simp [hvm']

/-- Running the tally loop over a record list adds, for each message,
the number of qualifying records that carry that message. -/
theorem entryCount_tally_fold (msg : String) :
    ∀ (records : List DetectionRecord) (acc : List ViolationEntry),
      entryCount
        (records.foldl
          (fun acc r =>
            if !(pyTruthy r.is_compliant) && msgTruthy r.compliance_message then
              tallyInsert acc (r.compliance_message.getD "")
            else acc) acc) msg
        = entryCount acc msg
          + records.countP (fun r =>
              (!(pyTruthy r.is_compliant) && msgTruthy r.compliance_message)
                && (r.compliance_message.getD "" == msg)) := by
  intro records
  induction records with
  | nil => intro acc; simp
  | cons r rs ih =>
    intro acc
    simp only [List.foldl_cons, List.countP_cons]
    by_cases hc : (!(pyTruthy r.is_compliant) && msgTruthy r.compliance_message) = true
    · rw [if_pos hc, ih, entryCount_tallyInsert]
      by_cases hmsg : (r.compliance_message.getD "" == msg) = true
      · simp [hc, hmsg]
        omega
      · have hmsg' : (r.compliance_message.getD "" == msg) = false := by
          simpa using hmsg
        simp [hc, hmsg']
    · have hc' : (!(pyTruthy r.is_compliant) && msgTruthy r.compliance_message)
          = false := by simpa using hc
      rw [hc']
      simp only [Bool.false_eq_true, if_false]
      rw [ih]
      simp [hc']

/-- Counting with pointwise-equal predicates gives equal counts. -/
theorem countP_eq_of_agree {α : Type} (l : List α) (p q : α → Bool)
    (h : ∀ a ∈ l, p a = q a) : l.countP p = l.countP q := by
  induction l with
  | nil => rfl
  | cons a l ih =>
    simp only [List.countP_cons, h a (List.mem_cons_self a l),
      ih (fun b hb => h b (List.mem_cons_of_mem a hb))]

/-- On a record where a None compliance flag forces a falsy message
(the writer invariant of `save_detection_record`), the tally loop's
guard-plus-message test coincides with the spec-side predicate
"non-compliant with this non-empty message". -/
theorem tally_pred_eq_nonCompliantWithMsg (msg : String) (r : DetectionRecord)
    (hr : r.is_compliant = none → msgTruthy r.compliance_message = false) :
    ((!(pyTruthy r.is_compliant) && msgTruthy r.compliance_message)
        && (r.compliance_message.getD "" == msg))
      = nonCompliantWithMsg msg r := by
  rcases hic : r.is_compliant with _ | b
  · rcases hcm : r.compliance_message with _ | s
    · simp [pyTruthy, msgTruthy, nonCompliantWithMsg, hic, hcm]
    · have h0 := hr hic
      rw [hcm] at h0
      simp [pyTruthy, nonCompliantWithMsg, hic, hcm, h0]
  · cases b
    · rcases hcm : r.compliance_message with _ | s
      · simp [pyTruthy, msgTruthy, nonCompliantWithMsg, hic, hcm]
      · simp only [pyTruthy, msgTruthy, nonCompliantWithMsg, hic, hcm, Option.getD]
        cases hs : (s == "") <;> cases hsm : (s == msg) <;> simp [hs, hsm]
    · simp [pyTruthy, nonCompliantWithMsg, hic]

/-- Membership in a stable insertion is membership in the original
list or being the inserted element. -/
theorem mem_insertSorted {α : Type} (le : α → α → Bool) (x z : α) :
    ∀ (l : List α), z ∈ insertSorted le x l ↔ z = x ∨ z ∈ l := by
  intro l
  induction l with
  | nil => simp [insertSorted]
  | cons y ys ih =>
    by_cases h : le x y = true <;> simp [insertSorted, h, ih] <;> tauto

/-- Inserting into a sorted list keeps it sorted, for a total
transitive Bool order. -/
theorem pairwise_insertSorted {α : Type} (le : α → α → Bool)
    (htot : ∀ a b, le a b = true ∨ le b a = true)
    (htrans : ∀ a b c, le a b = true → le b c = true → le a c = true)
    (x : α) (l : List α) (h : List.Pairwise (fun a b => le a b = true) l) :
    List.Pairwise (fun a b => le a b = true) (insertSorted le x l) := by
  induction l with
  | nil => simp [insertSorted]
  | cons y ys ih =>
    by_cases hxy : le x y = true
    · rw [insertSorted, if_pos hxy]
      refine List.Pairwise.cons ?_ h
      intro z hz
      rcases List.mem_cons.mp hz with rfl | hz'
      · exact hxy
      · exact htrans x y z hxy (List.rel_of_pairwise_cons h hz')
    · rw [insertSorted, if_neg hxy]
      have hyx : le y x = true := (htot x y).resolve_left hxy
      obtain ⟨hy, hys⟩ := List.pairwise_cons.mp h
      refine List.Pairwise.cons ?_ (ih hys)
      intro z hz
      rcases (mem_insertSorted le x z ys).mp hz with rfl | hmem
      · exact hyx
      · exact hy z hmem

/-- The stable insertion sort produces a sorted list, for a total
transitive Bool order. -/
theorem pairwise_stableSort {α : Type} (le : α → α → Bool)
    (htot : ∀ a b, le a b = true ∨ le b a = true)
    (htrans : ∀ a b c, le a b = true → le b c = true → le a c = true)
    (l : List α) :
    List.Pairwise (fun a b => le a b = true) (stableSort le l) := by
  induction l with
  | nil => exact List.Pairwise.nil
  | cons a l ih => exact pairwise_insertSorted le htot htrans a _ ih

/-- Stability of the count-descending insertion, phrased per count
class: the inserted entry lands in front of its own count class, and
entries of every fixed count keep their relative order. -/
theorem filter_count_insertSorted (x : ViolationEntry) (c : Nat) :
    ∀ (l : List ViolationEntry),
      (insertSorted countGe x l).filter (fun e => e.count == c)
        = (if x.count == c then
            x :: l.filter (fun e => e.count == c)
          else l.filter (fun e => e.count == c)) := by
  intro l
  induction l with
  | nil =>
    by_cases h : (x.count == c) = true <;> simp [insertSorted, h]
  | cons y ys ih =>
    by_cases hle : countGe x y = true
    · rw [insertSorted, if_pos hle]
      by_cases hx : (x.count == c) = true <;> simp [List.filter_cons, hx]
    · rw [insertSorted, if_neg hle]
      have hgt : x.count < y.count := by simpa [countGe] using hle
      rw [List.filter_cons]
      by_cases hy : (y.count == c) = true
      · have hyc : y.count = c := by simpa using hy
        by_cases hx : (x.count == c) = true
        · have hxc : x.count = c := by simpa using hx
          omega
        · have hx' : (x.count == c) = false := by simpa using hx
          simp [hy, ih, hx', List.filter_cons]
      · have hy' : (y.count == c) = false := by simpa using hy
        simp [hy', ih, List.filter_cons]

/-- Stability of the whole sort per count class. -/
theorem filter_count_stableSort (c : Nat) :
    ∀ (l : List ViolationEntry),
      (stableSort countGe l).filter (fun e => e.count == c)
        = l.filter (fun e => e.count == c) := by
  intro l
  induction l with
  | nil => rfl
  | cons a l ih =>
    show (insertSorted countGe a (stableSort countGe l)).filter _ = _
    rw [filter_count_insertSorted]
    by_cases h : (a.count == c) = true <;> simp [List.filter_cons, h, ih]

/-- Claim C9: under the writer invariant (a record whose compliance
flag is None never carries a truthy message, as `save_detection_record`
guarantees), the analytics top_violations list has at most 5 entries,
is sorted by descending count, equals the first 5 entries of the
stable count-descending sort of the tally (ties keep first-seen order:
every fixed-count class of the sorted tally lists its entries in tally
order), and the tally gives each message exactly the number of
non-compliant records carrying that non-empty message. -/
theorem get_analytics_top_violations (records : List DetectionRecord)
    (start_date now_iso : String) (days : Nat)
    (hinv : ∀ r ∈ records, r.is_compliant = none →
      msgTruthy r.compliance_message = false) :
    (get_analytics records start_date now_iso days).top_violations.length ≤ 5
    ∧ List.Pairwise (fun a b => b.count ≤ a.count)
        (get_analytics records start_date now_iso days).top_violations
    ∧ (get_analytics records start_date now_iso days).top_violations
        = (stableSort countGe (violationTally records)).take 5
    ∧ (∀ c : Nat, (stableSort countGe (violationTally records)).filter
          (fun e => e.count == c)
        = (violationTally records).filter (fun e => e.count == c))
    ∧ (∀ msg : String, entryCount (violationTally records) msg
        = records.countP (nonCompliantWithMsg msg)) := by
  have htv : (get_analytics records start_date now_iso days).top_violations
      = (stableSort countGe (violationTally records)).take 5 := by
    cases records <;> rfl
  have htot : ∀ a b : ViolationEntry,
      countGe a b = true ∨ countGe b a = true := by
    intro a b
    rcases Nat.le_total b.count a.count with h | h
    · exact Or.inl (by simpa [countGe] using h)
    · exact Or.inr (by simpa [countGe] using h)
  have htrans : ∀ a b c : ViolationEntry,
      countGe a b = true → countGe b c = true → countGe a c = true := by
    intro a b c hab hbc
    have h1 : b.count ≤ a.count := by simpa [countGe] using hab
    have h2 : c.count ≤ b.count := by simpa [countGe] using hbc
    simp [countGe]
    omega
  refine ⟨?_, ?_, htv, fun c => filter_count_stableSort c (violationTally records), ?_⟩
  · rw [htv]
    exact (List.length_take_le _ _)
  · rw [htv]
    have hp := pairwise_stableSort countGe htot htrans (violationTally records)
    exact (List.Pairwise.sublist (List.take_sublist _ _) hp).imp
      (fun hab => by simpa [countGe] using hab)
  · intro msg
    have hfold := entryCount_tally_fold msg records []
    have hzero : entryCount [] msg = 0 := rfl
    rw [show violationTally records = records.foldl
        (fun acc r =>
          if !(pyTruthy r.is_compliant) && msgTruthy r.compliance_message then
            tallyInsert acc (r.compliance_message.getD "")
          else acc) [] from rfl, hfold, hzero, Nat.zero_add]
    exact countP_eq_of_agree records _ _
      (fun r hr => tally_pred_eq_nonCompliantWithMsg msg r (hinv r hr))

/-- Witness for C9 at a concrete three-record window holding one
non-compliant, one compliant and one unchecked record. -/
theorem get_analytics_top_violations_witness :
    (get_analytics [recNC, recOK, recUnchecked]
        "2026-01-26" "2026-02-02" 7).top_violations.length ≤ 5
    ∧ entryCount (violationTally [recNC, recOK, recUnchecked])
        "2 PPE violation(s) detected"
      = List.countP (nonCompliantWithMsg "2 PPE violation(s) detected")
          [recNC, recOK, recUnchecked] :=
  ⟨(get_analytics_top_violations [recNC, recOK, recUnchecked]
      "2026-01-26" "2026-02-02" 7 (by decide)).1,
    (get_analytics_top_violations [recNC, recOK, recUnchecked]
      "2026-01-26" "2026-02-02" 7 (by decide)).2.2.2.2 _⟩

end PPE
